import Mathlib

/-!
Shallow embedding of the TraderMade Go SDK streaming (WebSocket) client:
connection lifecycle (Connect / Disconnect), the authentication frame,
inbound-frame classification and dispatch (wsReadPump), millisecond
timestamp rendering, the read-pump teardown, and the reconnection loop
(reconnect).  Machine integers are modelled as Int with explicit wrap at
2^64 where int64 overflow matters.
-/

namespace TradermadeWs

/-- JSON values as received on the wire.  Numbers are modelled as
rationals; the client only carries them through, never computes with
them. -/
inductive JsonValue where
  | jnull
  | jbool (b : Bool)
  | jnum (q : Rat)
  | jstr (s : String)
  | jarr (elems : List JsonValue)
  | jobj (fields : List (String × JsonValue))

/-- Go struct ConnectedMessage: the connection status notice with
status and message fields. -/
structure ConnectedMessage where
  status : String
  message : String
  deriving DecidableEq

/-- Go struct QuoteMessage: symbol, bid, ask, mid and the millisecond
timestamp, which arrives as a string. -/
structure QuoteMessage where
  symbol : String
  bid : Rat
  ask : Rat
  mid : Rat
  ts : String
  deriving DecidableEq

/-- Key lookup in a JSON object.  encoding/json keeps the last
occurrence of a duplicated key, hence the later-binding-wins
recursion. -/
def jlookup : List (String × JsonValue) → String → Option JsonValue
  | [], _ => none
  | (k, v) :: rest, key =>
    match jlookup rest key with
    | some w => some w
    | none => if k = key then some v else none

/-- encoding/json decoding of a string-typed struct field: absent or
null leaves the zero value, a string is taken verbatim, any other
JSON type is an unmarshal error. -/
def decodeStringField (fields : List (String × JsonValue)) (key : String) : Option String :=
  match jlookup fields key with
  | none => some ""
  | some JsonValue.jnull => some ""
  | some (JsonValue.jstr s) => some s
  | some _ => none

/-- encoding/json decoding of a float64-typed struct field: absent or
null leaves zero, a number is taken, any other JSON type is an
unmarshal error. -/
def decodeNumberField (fields : List (String × JsonValue)) (key : String) : Option Rat :=
  match jlookup fields key with
  | none => some 0
  | some JsonValue.jnull => some 0
  | some (JsonValue.jnum q) => some q
  | some _ => none

/-- json.Unmarshal of a frame into ConnectedMessage: the top level
must be an object, unknown fields are ignored, a type mismatch on
status or message is an error. -/
def unmarshalConnected : JsonValue → Option ConnectedMessage
  | JsonValue.jobj fields =>
    match decodeStringField fields "status", decodeStringField fields "message" with
    | some s, some m => some ⟨s, m⟩
    | _, _ => none
  | _ => none

/-- json.Unmarshal of a frame into QuoteMessage: the top level must be
an object, unknown fields are ignored, a type mismatch on any of the
five fields is an error. -/
def unmarshalQuote : JsonValue → Option QuoteMessage
  | JsonValue.jobj fields =>
    match decodeStringField fields "symbol", decodeNumberField fields "bid",
          decodeNumberField fields "ask", decodeNumberField fields "mid",
          decodeStringField fields "ts" with
    | some sym, some b, some a, some m, some t => some ⟨sym, b, a, m, t⟩
    | _, _, _, _, _ => none
  | _ => none

/-- Decimal digit run: none when empty or when any character is not a
digit, otherwise the base-10 value. -/
def parseDecimal (l : List Char) : Option Nat :=
  if l.isEmpty then none
  else if l.all (fun c => c.isDigit) then
    some (l.foldl (fun acc c => acc * 10 + (c.toNat - 48)) 0)
  else none

/-- Largest value of a signed 64-bit integer. -/
def int64Max : Nat := 9223372036854775807

/-- strconv.ParseInt with base 10 and bitSize 64: optional sign, then a
non-empty digit run; values outside the int64 range are a range
error (none). -/
def goParseInt64 (s : String) : Option Int :=
  match s.data with
  | '+' :: rest =>
    match parseDecimal rest with
    | some n => if n ≤ int64Max then some (n : Int) else none
    | none => none
  | '-' :: rest =>
    match parseDecimal rest with
    | some n => if n ≤ int64Max + 1 then some (-(n : Int)) else none
    | none => none
  | l =>
    match parseDecimal l with
    | some n => if n ≤ int64Max then some (n : Int) else none
    | none => none

/-- Signed 64-bit wraparound of an integer, as performed by Go int64
arithmetic. -/
def wrap64 (n : Int) : Int := (n + 2 ^ 63) % 2 ^ 64 - 2 ^ 63

/-- One decimal digit character; arguments are always reduced mod 10
by the callers. -/
def digitChar (d : Nat) : Char :=
  if d = 0 then '0' else if d = 1 then '1' else if d = 2 then '2'
  else if d = 3 then '3' else if d = 4 then '4' else if d = 5 then '5'
  else if d = 6 then '6' else if d = 7 then '7' else if d = 8 then '8'
  else '9'

/-- Decimal digits of a natural number. -/
def natChars (n : Nat) : List Char := Nat.toDigits 10 n

/-- Zero-padded fixed-minimum-width decimal, as produced by the
layout components of time.Format. -/
def padNum (w n : Nat) : List Char :=
  List.replicate (w - (natChars n).length) '0' ++ natChars n

/-- Exactly three zero-padded digits: the fractional-second component
printed by the .000 layout directive. -/
def pad3 (n : Nat) : List Char :=
  [digitChar (n / 100 % 10), digitChar (n / 10 % 10), digitChar (n % 10)]

/-- Proleptic Gregorian calendar date from a day count relative to
1970-01-01 (the civil-from-days algorithm, as computed inside
time.Format's date conversion). -/
def civilFromDays (z0 : Int) : Int × Nat × Nat :=
  let z := z0 + 719468
  let era := z.fdiv 146097
  let doe := (z % 146097).toNat
  let yoe := (doe - doe / 1460 + doe / 36524 - doe / 146096) / 365
  let y := era * 400 + yoe
  let doy := doe - (365 * yoe + yoe / 4 - yoe / 100)
  let mp := (5 * doy + 2) / 153
  let d := doy - (153 * mp + 2) / 5 + 1
  let m := if mp < 10 then mp + 3 else mp - 9
  (if m ≤ 2 then y + 1 else y, m, d)

/-- Characters of the date-and-time part of the 2006-01-02 15:04:05
layout (everything before the fractional-second directive), for a
second count relative to the epoch. -/
def dateTimeChars (sec : Int) : List Char :=
  let days := sec.fdiv 86400
  let sod := (sec % 86400).toNat
  let ymd := civilFromDays days
  let yearChars : List Char :=
    if ymd.1 < 0 then '-' :: padNum 4 (-ymd.1).toNat else padNum 4 ymd.1.toNat
  yearChars ++ '-' :: padNum 2 ymd.2.1 ++ '-' :: padNum 2 ymd.2.2 ++
    ' ' :: padNum 2 (sod / 3600) ++ ':' :: padNum 2 (sod % 3600 / 60) ++
    ':' :: padNum 2 (sod % 60) ++ []

/-- time.Format with layout 2006-01-02 15:04:05.000 applied to the
time sec seconds plus ms milliseconds after the epoch.  Time-zone
offsets are whole seconds, so the fractional-second component is
zone-independent; the date part is rendered for UTC. -/
def formatDateTime (sec : Int) (ms : Nat) : String :=
  String.mk (dateTimeChars sec ++ '.' :: pad3 ms)

/-- The human-readable timestamp computed by wsReadPump from the
parsed millisecond timestamp: the int64 product tsInt*1e6 (which
wraps on overflow), normalised by time.Unix into seconds plus a
nanosecond remainder in range, then formatted with millisecond
precision. -/
def humanTimestamp (tsInt : Int) : String :=
  let nsec := wrap64 (tsInt * 1000000)
  let sec := nsec.fdiv 1000000000
  let nanos := (nsec % 1000000000).toNat
  formatDateTime sec (nanos / 1000000)

/-- Characters of the fractional-second component of a rendered
timestamp: everything after the final dot. -/
def fracComponent (s : String) : List Char :=
  (s.data.reverse.takeWhile (fun c => c ≠ '.')).reverse

/-- Parsed value of the fractional-second component of a rendered
timestamp. -/
def fracValue (s : String) : Option Nat := parseDecimal (fracComponent s)

/-- What wsReadPump does with one structured frame. -/
inductive FrameAction where
  | connectedCb (m : ConnectedMessage)
  | quoteCb (q : QuoteMessage) (human : String)
  | droppedBadJson
  | droppedBadTs
  deriving DecidableEq

/-- The quote branch of wsReadPump: unmarshal into QuoteMessage, parse
the ts string, then invoke the message handler with the parsed quote
and the derived human-readable timestamp; either failure skips the
frame. -/
def tryQuote (v : JsonValue) : FrameAction :=
  match unmarshalQuote v with
  | none => FrameAction.droppedBadJson
  | some q =>
    match goParseInt64 q.ts with
    | none => FrameAction.droppedBadTs
    | some t => FrameAction.quoteCb q (humanTimestamp t)

/-- wsReadPump's handling of a frame that passed the structured-payload
check: first the ConnectedMessage unmarshal, taken only when it
succeeds with status equal to "connected"; otherwise the quote
branch. -/
def handleStructured (v : JsonValue) : FrameAction :=
  match unmarshalConnected v with
  | some cm => if cm.status = "connected" then FrameAction.connectedCb cm else tryQuote v
  | none => tryQuote v

/-- The structured-payload check of wsReadPump:
strings.HasPrefix(msgStr, left-brace) or strings.HasPrefix(msgStr,
left-bracket), i.e. a test on the literal first character of the
frame. -/
def isStructured (s : String) : Bool :=
  match s.data with
  | c :: _ => c = '{' || c = '['
  | [] => false

/-- Result of one wsReadPump iteration on a frame. -/
inductive FrameResult where
  | action (a : FrameAction)
  | statusLine (s : String)
  | unparsable
  deriving DecidableEq

/-- One wsReadPump iteration: frames failing the structured check are
printed as an opaque status line; structured frames are dispatched
(parsed is the result of JSON-parsing the raw text; none models a
syntactically invalid payload, which both unmarshals reject). -/
def handleFrame (raw : String) (parsed : Option JsonValue) : FrameResult :=
  if isStructured raw then
    match parsed with
    | some v => FrameResult.action (handleStructured v)
    | none => FrameResult.unparsable
  else FrameResult.statusLine raw

/-- Whether a frame action invokes a user callback. -/
def actionInvokesCallback : FrameAction → Bool
  | FrameAction.connectedCb _ => true
  | FrameAction.quoteCb _ _ => true
  | _ => false

/-- Whether a frame result invokes a user callback. -/
def resultInvokesCallback : FrameResult → Bool
  | FrameResult.action a => actionInvokesCallback a
  | _ => false

/-- Classification by the first non-whitespace character, as the
specification words it (for comparison with isStructured, which is
what the code computes). -/
def specStructured (s : String) : Bool :=
  match s.data.dropWhile Char.isWhitespace with
  | c :: _ => c = '{' || c = '['
  | [] => false

/-- Result of websocket.DefaultDialer.Dial: a transport handle or an
error. -/
inductive DialResult where
  | ok (handle : Nat)
  | err (e : String)

/-- Result of Conn.WriteMessage for the auth frame. -/
inductive WriteResult where
  | ok
  | err (e : String)

/-- Observable outcome of one Connect call: the stored handle
afterwards, the returned error (none is success), whether a dial was
attempted, whether a read pump was started, and the auth frame handed
to WriteMessage, if any. -/
structure ConnectOutcome where
  conn : Option Nat
  retErr : Option String
  dialed : Bool
  readPumpStarted : Bool
  authFrameSent : Option String
  deriving DecidableEq

/-- The credential frame built by Connect:
fmt.Sprintf with the userKey/symbol layout; note the single space
after the comma in the Go format string. -/
def authFrame (apiKey symbol : String) : String :=
  "\x7b\"userKey\":\"" ++ apiKey ++ "\", \"symbol\":\"" ++ symbol ++ "\"\x7d"

/-- WebSocketClient.Connect: returns nil immediately when a handle is
installed; otherwise dials (on error: no handle, error returned),
then starts wsReadPump, then writes the credential frame (on error:
handle stays installed, wrapped error returned). -/
def Connect (conn₀ : Option Nat) (apiKey symbol : String)
    (dial : DialResult) (write : WriteResult) : ConnectOutcome :=
  match conn₀ with
  | some h => ⟨some h, none, false, false, none⟩
  | none =>
    match dial with
    | DialResult.err e => ⟨none, some e, true, false, none⟩
    | DialResult.ok h =>
      let cred := authFrame apiKey symbol
      match write with
      | WriteResult.ok => ⟨some h, none, true, true, some cred⟩
      | WriteResult.err e =>
        ⟨some h, some ("Failed to send credentials: " ++ e), true, true, some cred⟩

/-- The client state touched by Disconnect and the read-pump teardown:
the transport handle and whether the StopReconnect channel has been
closed. -/
structure WsClient where
  conn : Option Nat
  stopClosed : Bool
  deriving DecidableEq

/-- close(ch) on the StopReconnect channel: closing an already-closed
channel is a runtime panic. -/
def goClose (stopClosed : Bool) : Except String Bool :=
  if stopClosed then Except.error "close of closed channel" else Except.ok true

/-- WebSocketClient.Disconnect: closes StopReconnect (panicking when it
is already closed), then closes and clears the handle when present.
The Except.error branch models the runtime panic. -/
def Disconnect (st : WsClient) : Except String WsClient :=
  match goClose st.stopClosed with
  | Except.error e => Except.error e
  | Except.ok _ => Except.ok ⟨none, true⟩

/-- Conn.Close() through a possibly-nil pointer: a method call on a nil
transport handle dereferences nil and panics. -/
def connClose (conn : Option Nat) : Except String Unit :=
  match conn with
  | none => Except.error "runtime error: invalid memory address or nil pointer dereference"
  | some _ => Except.ok ()

/-- The deferred teardown of wsReadPump: client.Conn.Close() with no
nil check, then clearing the handle. -/
def wsReadPumpTeardown (conn : Option Nat) : Except String (Option Nat) :=
  match connClose conn with
  | Except.error e => Except.error e
  | Except.ok _ => Except.ok none

/-- Events the reconnection loop can emit, indexed by the attempt
counter. -/
inductive ReconnectEvent where
  | attemptCallback (n : Nat)
  | connectAttempt (n : Nat)
  deriving DecidableEq

/-- Terminal state of the reconnection loop. -/
inductive ReconnectOutcome where
  | connected
  | stopped
  deriving DecidableEq

/-- WebSocketClient.reconnect from a given attempt number, where
remaining is how many attempts the maximum still allows (the Go loop
returns as soon as the incremented counter exceeds MaxRetries).  On
each attempt the reconnection callback fires, then Connect is called;
on failure the loop waits for the retry interval unless the
StopReconnect gate is seen closed at that wait, which stops the
loop. -/
def reconnectLoop (connectOk : Nat → Bool) (stopRequested : Nat → Bool) :
    Nat → Nat → List ReconnectEvent × ReconnectOutcome
  | 0, _ => ([], ReconnectOutcome.stopped)
  | remaining + 1, attempt =>
    let events := [ReconnectEvent.attemptCallback attempt, ReconnectEvent.connectAttempt attempt]
    if connectOk attempt then
      (events, ReconnectOutcome.connected)
    else if stopRequested attempt then
      (events, ReconnectOutcome.stopped)
    else
      let rest := reconnectLoop connectOk stopRequested remaining (attempt + 1)
      (events ++ rest.1, rest.2)

/-- WebSocketClient.reconnect: the loop starting at attempt 1 with
MaxRetries attempts allowed.  connectOk says whether the k-th Connect
call succeeds; stopRequested says whether the StopReconnect gate is
seen closed at the wait following the k-th failed attempt. -/
def reconnect (maxRetries : Nat) (connectOk : Nat → Bool) (stopRequested : Nat → Bool) :
    List ReconnectEvent × ReconnectOutcome :=
  reconnectLoop connectOk stopRequested maxRetries 1

/-- The event trace of n consecutive failing attempts starting at a
given attempt number. -/
def expectedAttemptEvents (start : Nat) : Nat → List ReconnectEvent
  | 0 => []
  | n + 1 =>
    ReconnectEvent.attemptCallback start :: ReconnectEvent.connectAttempt start ::
      expectedAttemptEvents (start + 1) n

/-- Whether a reconnection event is an invocation of the
reconnection-attempt callback. -/
def isAttemptCallback : ReconnectEvent → Bool
  | ReconnectEvent.attemptCallback _ => true
  | _ => false

/-- Whether a reconnection event is a call to Connect. -/
def isConnectAttempt : ReconnectEvent → Bool
  | ReconnectEvent.connectAttempt _ => true
  | _ => false

/-! ## Helper lemmas -/

lemma digitChar_isDigit (d : Nat) : (digitChar d).isDigit = true := by
  unfold digitChar
  repeat' split
  all_goals decide

lemma digitChar_ne_dot (d : Nat) : (digitChar d = '.') = False := by
  unfold digitChar
  repeat' split
  all_goals decide

lemma digitChar_toNat (d : Nat) (h : d < 10) : (digitChar d).toNat = 48 + d := by
  interval_cases d <;> decide

lemma parseDecimal_pad3 (n : Nat) (h : n < 1000) : parseDecimal (pad3 n) = some n := by
  unfold parseDecimal pad3
  have h1 : n / 100 % 10 < 10 := Nat.mod_lt _ (by omega)
  have h2 : n / 10 % 10 < 10 := Nat.mod_lt _ (by omega)
  have h3 : n % 10 < 10 := Nat.mod_lt _ (by omega)
  simp [digitChar_isDigit, digitChar_toNat _ h1, digitChar_toNat _ h2, digitChar_toNat _ h3]
  omega

lemma takeWhile_append_stop {α : Type} (p : α → Bool) (xs ys : List α) (y : α)
    (hxs : ∀ x ∈ xs, p x = true) (hy : p y = false) :
    (xs ++ y :: ys).takeWhile p = xs := by
  induction xs with
  | nil => simp [List.takeWhile_cons, hy]
  | cons a as ih =>
    simp only [List.cons_append, List.takeWhile_cons]
    rw [hxs a (by simp)]
    simp [ih (fun x hx => hxs x (by simp [hx]))]

/-- The fractional-second component of a rendered timestamp parses
back to the millisecond argument. -/
lemma frac_formatDateTime (sec : Int) (ms : Nat) (h : ms < 1000) :
    fracValue (formatDateTime sec ms) = some ms := by
  unfold fracValue fracComponent formatDateTime
  have hdata : (String.mk (dateTimeChars sec ++ '.' :: pad3 ms)).data
      = dateTimeChars sec ++ '.' :: pad3 ms := rfl
  rw [hdata]
  have hrev : (dateTimeChars sec ++ '.' :: pad3 ms).reverse
      = (pad3 ms).reverse ++ '.' :: (dateTimeChars sec).reverse := by
    simp [List.reverse_append]
  rw [hrev]
  rw [takeWhile_append_stop _ _ _ _ ?hall ?hdot]
  · rw [List.reverse_reverse]
    exact parseDecimal_pad3 ms h
  case hall =>
    intro x hx
    rw [List.mem_reverse] at hx
    unfold pad3 at hx
    simp at hx
    rcases hx with h | h | h <;> subst h <;> simp [digitChar_ne_dot]
  case hdot => simp

/-- When the timestamp is small enough for the nanosecond product to
stay inside int64, the rendered time is the exact second and
millisecond split of the input. -/
lemma humanTimestamp_eq_of_small (T : Nat) (h : T ≤ 9223372036854) :
    humanTimestamp (T : Int) = formatDateTime ((T / 1000 : Nat) : Int) (T % 1000) := by
  unfold humanTimestamp wrap64
  have hb : (T : Int) * 1000000 + 2 ^ 63 < 2 ^ 64 := by
    have : (T : Int) ≤ 9223372036854 := by exact_mod_cast h
    nlinarith
  have hnn : (0 : Int) ≤ (T : Int) * 1000000 + 2 ^ 63 := by positivity
  rw [Int.emod_eq_of_lt hnn hb]
  have hsimp : (T : Int) * 1000000 + 2 ^ 63 - 2 ^ 63 = ((T * 1000000 : Nat) : Int) := by
    push_cast; ring
  rw [hsimp]
  have hfdiv : ((T * 1000000 : Nat) : Int).fdiv 1000000000 = ((T / 1000 : Nat) : Int) := by
    rw [Int.fdiv_eq_ediv _ (by norm_num)]
    omega
  have hmod : ((((T * 1000000 : Nat) : Int)) % 1000000000).toNat / 1000000 = T % 1000 := by
    omega
  simp only [hfdiv, hmod]

lemma reconnectLoop_all_fail (connectOk stopRequested : Nat → Bool)
    (hc : ∀ n, connectOk n = false) (hs : ∀ n, stopRequested n = false)
    (remaining attempt : Nat) :
    reconnectLoop connectOk stopRequested remaining attempt =
      (expectedAttemptEvents attempt remaining, ReconnectOutcome.stopped) := by
  induction remaining generalizing attempt with
  | zero => rfl
  | succ n ih => simp [reconnectLoop, expectedAttemptEvents, hc, hs, ih]

lemma expected_filter_cb (start n : Nat) :
    (expectedAttemptEvents start n).filter isAttemptCallback =
      (List.range' start n).map ReconnectEvent.attemptCallback := by
  induction n generalizing start with
  | zero => rfl
  | succ m ih => simp [expectedAttemptEvents, List.range', List.filter, isAttemptCallback, ih]

lemma expected_filter_conn (start n : Nat) :
    (expectedAttemptEvents start n).filter isConnectAttempt =
      (List.range' start n).map ReconnectEvent.connectAttempt := by
  induction n generalizing start with
  | zero => rfl
  | succ m ih => simp [expectedAttemptEvents, List.range', List.filter, isConnectAttempt, ih]

/-! ## Claims -/

/-- Claim C1, counterexample: the authentication frame written after a
successful connect is NOT the whitespace-free userKey/symbol object
the claim states, already at credential k1 and subscription list
EURUSD,GBPUSD -- the Go format string puts one space after the
comma. -/
theorem connect_auth_frame_counterexample :
    (Connect none "k1" "EURUSD,GBPUSD" (DialResult.ok 0) WriteResult.ok).authFrameSent ≠
      some "\x7b\"userKey\":\"k1\",\"symbol\":\"EURUSD,GBPUSD\"\x7d" := by
  decide

/-- Claim C1, amended: for every credential and subscription list, the
authentication frame written after a successful connect is exactly the
userKey/symbol JSON object with a single space after the comma (after
the userKey value) and no other whitespace. -/
theorem connect_auth_frame_amended (apiKey symbol : String) (h : Nat) :
    (Connect none apiKey symbol (DialResult.ok h) WriteResult.ok).authFrameSent =
      some ("\x7b\"userKey\":\"" ++ apiKey ++ "\", \"symbol\":\"" ++ symbol ++ "\"\x7d") :=
  rfl

/-- Claim C2: with MaxRetries = N and every Connect call failing, the
reconnection loop emits exactly the trace of attempts 1..N -- the
attempt callback then a Connect call for each -- and returns Stopped;
filtering the trace shows the callback fires exactly N times with
attempt numbers 1 through N and Connect is called exactly N times. -/
theorem reconnect_exhausts_after_max_attempts (N : Nat) :
    reconnect N (fun _ => false) (fun _ => false) =
      (expectedAttemptEvents 1 N, ReconnectOutcome.stopped) ∧
    (expectedAttemptEvents 1 N).filter isAttemptCallback =
      (List.range' 1 N).map ReconnectEvent.attemptCallback ∧
    (expectedAttemptEvents 1 N).filter isConnectAttempt =
      (List.range' 1 N).map ReconnectEvent.connectAttempt :=
  ⟨reconnectLoop_all_fail _ _ (fun _ => rfl) (fun _ => rfl) N 1,
    expected_filter_cb 1 N, expected_filter_conn 1 N⟩

/-- Claim C3: a connection-status notice (an object with string status
and message fields) whose status is not the connected sentinel invokes
neither the connected callback nor the quote callback: the frame falls
through to the quote branch, where the empty ts field fails integer
parsing and the frame is skipped. -/
theorem status_notice_invokes_no_callback (s m : String) (hne : s ≠ "connected") :
    handleStructured (JsonValue.jobj
        [("status", JsonValue.jstr s), ("message", JsonValue.jstr m)]) =
      FrameAction.droppedBadTs := by
  have hc : unmarshalConnected (JsonValue.jobj
      [("status", JsonValue.jstr s), ("message", JsonValue.jstr m)]) = some ⟨s, m⟩ := rfl
  have hq : tryQuote (JsonValue.jobj
      [("status", JsonValue.jstr s), ("message", JsonValue.jstr m)]) =
      FrameAction.droppedBadTs := rfl
  unfold handleStructured
  rw [hc]
  simp [hne, hq]

/-- Witness for C3 at the concrete status failed / message ok. -/
theorem status_notice_invokes_no_callback_witness : ("failed" : String) ≠ "connected" ∧
    handleStructured (JsonValue.jobj
        [("status", JsonValue.jstr "failed"), ("message", JsonValue.jstr "ok")]) =
      FrameAction.droppedBadTs :=
  ⟨by decide, status_notice_invokes_no_callback "failed" "ok" (by decide)⟩

/-- Claim C4: when a transport handle is already installed, Connect
returns success immediately: no dial, no read pump started, no
authentication frame, and the handle is unchanged. -/
theorem connect_noop_when_connected (h : Nat) (apiKey symbol : String)
    (dial : DialResult) (write : WriteResult) :
    Connect (some h) apiKey symbol dial write = ⟨some h, none, false, false, none⟩ :=
  rfl

/-- Claim C5: when the dial fails Connect returns that error with no
handle installed; when the dial succeeds but the credential write
fails, Connect returns the wrapped send error while the handle stays
installed (and the read pump was already started). -/
theorem connect_failure_modes (apiKey symbol e : String) (h : Nat) (write : WriteResult) :
    Connect none apiKey symbol (DialResult.err e) write = ⟨none, some e, true, false, none⟩ ∧
    Connect none apiKey symbol (DialResult.ok h) (WriteResult.err e) =
      ⟨some h, some ("Failed to send credentials: " ++ e), true, true,
        some (authFrame apiKey symbol)⟩ :=
  ⟨rfl, rfl⟩

/-- Claim C6: when the cancellation gate is seen closed at the wait
following a failed attempt, the reconnection loop stops right there in
state Stopped -- whatever attempt budget remains, the trace holds only
the current attempt, so no further Connect call is made and the
reconnection-attempt callback never fires again. -/
theorem reconnect_stops_on_cancellation (connectOk stopRequested : Nat → Bool)
    (remaining attempt : Nat)
    (hstop : stopRequested attempt = true) (hfail : connectOk attempt = false) :
    reconnectLoop connectOk stopRequested (remaining + 1) attempt =
      ([ReconnectEvent.attemptCallback attempt, ReconnectEvent.connectAttempt attempt],
        ReconnectOutcome.stopped) := by
  simp [reconnectLoop, hstop, hfail]

/-- Witness for C6: a triggered gate and a failing Connect at attempt 1
with two more attempts allowed. -/
theorem reconnect_stops_on_cancellation_witness :
    (fun _ : Nat => true) 1 = true ∧ (fun _ : Nat => false) 1 = false ∧
    reconnectLoop (fun _ => false) (fun _ => true) 3 1 =
      ([ReconnectEvent.attemptCallback 1, ReconnectEvent.connectAttempt 1],
        ReconnectOutcome.stopped) :=
  ⟨rfl, rfl, reconnect_stops_on_cancellation (fun _ => false) (fun _ => true) 2 1 rfl rfl⟩

set_option maxRecDepth 4096 in
/-- Claim C7, counterexample: the timestamp 2^62 = 4611686018427387904
is a well-formed nonnegative base-10 millisecond value accepted by
ParseInt, yet the int64 nanosecond product wraps to zero, the rendered
timestamp is the epoch with fractional component 000, and T mod 1000
is 904 -- the claimed round-trip fails. -/
theorem quote_timestamp_counterexample :
    goParseInt64 "4611686018427387904" = some 4611686018427387904 ∧
    handleStructured (JsonValue.jobj [("symbol", JsonValue.jstr "EURUSD"),
        ("bid", JsonValue.jnum 1), ("ask", JsonValue.jnum 2), ("mid", JsonValue.jnum 2),
        ("ts", JsonValue.jstr "4611686018427387904")]) =
      FrameAction.quoteCb ⟨"EURUSD", 1, 2, 2, "4611686018427387904"⟩
        (humanTimestamp 4611686018427387904) ∧
    fracValue (humanTimestamp 4611686018427387904) = some 0 ∧
    (4611686018427387904 : Nat) % 1000 = 904 := by
  refine ⟨by decide, by decide, by decide, by decide⟩

/-- Claim C7, amended: for every quote frame whose ts field parses as a
nonnegative base-10 millisecond value T small enough that T times one
million stays inside int64 (T at most 9223372036854), the quote
callback receives the rendered timestamp and its fractional-second
component parses back to T mod 1000. -/
theorem quote_timestamp_millis_amended (sym tsStr : String) (b a m : Rat) (T : Nat)
    (hts : goParseInt64 tsStr = some (T : Int)) (hT : T ≤ 9223372036854) :
    handleStructured (JsonValue.jobj [("symbol", JsonValue.jstr sym),
        ("bid", JsonValue.jnum b), ("ask", JsonValue.jnum a), ("mid", JsonValue.jnum m),
        ("ts", JsonValue.jstr tsStr)]) =
      FrameAction.quoteCb ⟨sym, b, a, m, tsStr⟩ (humanTimestamp (T : Int)) ∧
    fracValue (humanTimestamp (T : Int)) = some (T % 1000) := by
  constructor
  · have hc : unmarshalConnected (JsonValue.jobj [("symbol", JsonValue.jstr sym),
        ("bid", JsonValue.jnum b), ("ask", JsonValue.jnum a), ("mid", JsonValue.jnum m),
        ("ts", JsonValue.jstr tsStr)]) = some ⟨"", ""⟩ := rfl
    have hu : unmarshalQuote (JsonValue.jobj [("symbol", JsonValue.jstr sym),
        ("bid", JsonValue.jnum b), ("ask", JsonValue.jnum a), ("mid", JsonValue.jnum m),
        ("ts", JsonValue.jstr tsStr)]) = some ⟨sym, b, a, m, tsStr⟩ := rfl
    unfold handleStructured
    rw [hc]
    simp only [show (("" : String) = "connected") = False by simp, if_false]
    unfold tryQuote
    rw [hu]
    simp only [hts]
  · rw [humanTimestamp_eq_of_small T hT]
    exact frac_formatDateTime _ _ (Nat.mod_lt _ (by omega))

/-- Witness for the amended C7 at the concrete timestamp
1700000000123: the fractional component is 123. -/
theorem quote_timestamp_millis_witness :
    goParseInt64 "1700000000123" = some ((1700000000123 : Nat) : Int) ∧
    (1700000000123 : Nat) ≤ 9223372036854 ∧
    fracValue (humanTimestamp ((1700000000123 : Nat) : Int)) = some 123 := by
  refine ⟨by decide, by decide, ?_⟩
  have := (quote_timestamp_millis_amended "EURUSD" "1700000000123" 1 1 1 1700000000123
    (by decide) (by decide)).2
  simpa using this

/-- Claim C8, counterexample: a frame of a space followed by an opening
brace has an opening brace as its first non-whitespace character, so
the claim classifies it as structured, but the code's literal prefix
check rejects it and the frame is treated as an opaque status line. -/
theorem classification_counterexample :
    specStructured " \x7b" = true ∧ isStructured " \x7b" = false ∧
    handleFrame " \x7b" none = FrameResult.statusLine " \x7b" := by
  refine ⟨by decide, by decide, rfl⟩

/-- Claim C8, amended: frame classification is decided by the literal
first character of the frame (no whitespace is skipped): a frame is
dispatched as a structured payload exactly when its first character is
an opening brace or bracket, and every frame classified as
non-structured becomes an opaque status line, which invokes no
callback. -/
theorem classification_first_char_amended (raw : String) (parsed : Option JsonValue) :
    (handleFrame raw parsed = FrameResult.statusLine raw ↔ isStructured raw = false) ∧
    resultInvokesCallback (FrameResult.statusLine raw) = false := by
  constructor
  · unfold handleFrame
    cases hs : isStructured raw with
    | false => simp
    | true => cases parsed <;> simp
  · rfl

/-- Claim C9: Disconnect is not idempotent: on a client whose
cancellation gate is still open the first call succeeds, closing the
gate and clearing the handle, and a second call on the resulting state
panics by closing the already-closed StopReconnect channel. -/
theorem disconnect_not_idempotent (st : WsClient) (hfresh : st.stopClosed = false) :
    Disconnect st = Except.ok ⟨none, true⟩ ∧
    Disconnect ⟨none, true⟩ = Except.error "close of closed channel" := by
  constructor
  · unfold Disconnect goClose
    rw [hfresh]
    rfl
  · rfl

/-- Witness for C9 on a freshly connected client. -/
theorem disconnect_not_idempotent_witness : (WsClient.mk (some 0) false).stopClosed = false ∧
    Disconnect ⟨some 0, false⟩ = Except.ok ⟨none, true⟩ ∧
    Disconnect ⟨none, true⟩ = Except.error "close of closed channel" :=
  ⟨rfl, (disconnect_not_idempotent ⟨some 0, false⟩ rfl).1,
    (disconnect_not_idempotent ⟨some 0, false⟩ rfl).2⟩

/-- Claim C10: the read pump's deferred teardown dereferences the
stored handle without a nil check: on a handle already cleared to nil
it panics with a nil pointer dereference, while on an installed handle
it completes close-and-clear. -/
theorem teardown_nil_deref :
    wsReadPumpTeardown none =
      Except.error "runtime error: invalid memory address or nil pointer dereference" ∧
    ∀ h : Nat, wsReadPumpTeardown (some h) = Except.ok none :=
  ⟨rfl, fun _ => rfl⟩

end TradermadeWs
